import Mathlib

/-!
# BondFlow cash-flow projector: a shallow embedding

This file embeds the cash-flow projection logic of the BondFlow
application (`src/App.tsx`) in Lean 4 and proves properties of it.
JavaScript numbers are modelled as exact rationals (`ℚ`); the
arithmetic in the projector is plain field arithmetic on literals,
so `ℚ` is the intended ideal semantics.

The embedded definitions mirror the source:

* `CashFlowDetail`, `CashFlowData` — the record types of the source
  (Italian labels are kept: "Cedola" = Coupon, "Tassazione Cedola" =
  Coupon Tax, "Rimborso Nominale" = Nominal Redemption, "Tassa Capital
  Gain" = Capital Gain Tax, "Commissione Banca" = Bank Commission,
  "Costo Acquisto" = Purchase Cost, "Nominale" = Nominal).
* `BondParameters` — the input state feeding the `cashFlows` memo;
  `durationYears` is the already-computed year fraction and
  `durationYearsOf` models its computation from a millisecond span.
* `cashFlows` — the projector producing the `CashFlowData` list.
* `totalPositive`, `totalNegative`, `netProfit`, `initialInvestment`,
  `totalReturnPercent`, `avgAnnualReturn` — the summary values.
-/

namespace BondFlow

/-- Coupon periodicity, source: `periodicity: 'annual' | 'semiannual'`. -/
inductive Periodicity where
  | annual
  | semiannual
deriving DecidableEq, Repr, Inhabited

/-- One named component of an inflow or outflow, source `CashFlowDetail`.
The optional `isFigurative?: boolean` is modelled as a `Bool` where an
absent property is `false` (the source only reads its truthiness). -/
structure CashFlowDetail where
  label : String
  value : ℚ
  isFigurative : Bool
deriving DecidableEq, Repr, Inhabited

/-- One row of the schedule, source `CashFlowData`.  `periodIndex`
records the loop index producing the row (0 for T0, `i` for the `i`-th
loop iteration); in the source it is the row's array position. -/
structure CashFlowData where
  periodIndex : ℕ
  time : String
  positive : ℚ
  negative : ℚ
  cumulative : ℚ
  label : String
  inflows : List CashFlowDetail
  outflows : List CashFlowDetail
deriving DecidableEq, Repr, Inhabited

/-- The input state of the projector (the React input states read by the
`cashFlows` memo).  `durationYears` holds the value of the
`durationYears` memo. -/
structure BondParameters where
  nominal : ℚ
  currentPrice : ℚ
  sellingPrice : ℚ
  taxRate : ℚ
  couponRate : ℚ
  bankCommission : ℚ
  periodicity : Periodicity
  durationYears : ℚ
  includeNominalAtT0 : Bool
  sellAtMaturity : Bool
  showNominal : Bool
deriving DecidableEq, Repr, Inhabited

/-- Milliseconds in a year of 365.25 days:
`1000 * 60 * 60 * 24 * 365.25`. -/
def msPerYear : ℚ := 1000 * 60 * 60 * 24 * (1461 / 4)

/-- Source `durationYears` memo:
`Math.max(0, maturity.getTime() - today.getTime()) / (1000*60*60*24*365.25)`,
as a function of the millisecond span `maturity - today`. -/
def durationYearsOf (diffMs : ℚ) : ℚ :=
  max 0 diffMs / msPerYear

/-- Source: `periodicity === 'annual' ? 1 : 2`. -/
def periodsPerYear (p : BondParameters) : ℚ :=
  match p.periodicity with
  | .annual => 1
  | .semiannual => 2

/-- Source: `Math.max(1, Math.ceil(durationYears * periodsPerYear))`. -/
def totalPeriods (p : BondParameters) : ℕ :=
  max 1 (Int.toNat ⌈p.durationYears * periodsPerYear p⌉)

/-- Source: `taxRate / 100`. -/
def taxDecimal (p : BondParameters) : ℚ := p.taxRate / 100

/-- Source: `(couponRate / 100) / periodsPerYear`. -/
def couponDecimal (p : BondParameters) : ℚ :=
  p.couponRate / 100 / periodsPerYear p

/-- Source: `bankCommission / 1000`. -/
def commissionDecimal (p : BondParameters) : ℚ := p.bankCommission / 1000

/-- Source: `(currentPrice / 100) * nominal`. -/
def purchaseCost (p : BondParameters) : ℚ := p.currentPrice / 100 * p.nominal

/-- Source: `nominal * commissionDecimal` (buy side). -/
def buyCommission (p : BondParameters) : ℚ := p.nominal * commissionDecimal p

/-- Source `t0Outflows`. -/
def t0Outflows (p : BondParameters) : List CashFlowDetail :=
  [⟨"Costo Acquisto", purchaseCost p, false⟩,
   ⟨"Commissione Banca", buyCommission p, false⟩]

/-- Source `t0Inflows`: the real nominal when `includeNominalAtT0`, else
the figurative nominal when `showNominal`, else nothing. -/
def t0Inflows (p : BondParameters) : List CashFlowDetail :=
  if p.includeNominalAtT0 then [⟨"Nominale", p.nominal, false⟩]
  else if p.showNominal then [⟨"Nominale", p.nominal, true⟩]
  else []

/-- Source `t0Negative = -(purchaseCost + buyCommission)`. -/
def t0Negative (p : BondParameters) : ℚ :=
  -(purchaseCost p + buyCommission p)

/-- Source `t0Positive = t0Inflows.reduce((s, d) => s + d.value, 0)`. -/
def t0Positive (p : BondParameters) : ℚ :=
  ((t0Inflows p).map CashFlowDetail.value).sum

/-- Source `t0RealInflow = includeNominalAtT0 ? nominal : 0`. -/
def t0RealInflow (p : BondParameters) : ℚ :=
  if p.includeNominalAtT0 then p.nominal else 0

/-- Source `currentCumulative = t0RealInflow + t0Negative` at T0. -/
def t0Cumulative (p : BondParameters) : ℚ :=
  t0RealInflow p + t0Negative p

/-- The T0 row pushed first into `data`. -/
def t0Row (p : BondParameters) : CashFlowData :=
  { periodIndex := 0
    time := "T0"
    positive := t0Positive p
    negative := t0Negative p
    cumulative := t0Cumulative p
    label := "Acquisto & Nominale"
    inflows := t0Inflows p
    outflows := t0Outflows p }

/-- Source `grossCoupon = nominal * couponDecimal`. -/
def grossCoupon (p : BondParameters) : ℚ := p.nominal * couponDecimal p

/-- Source `couponTax = grossCoupon * taxDecimal`. -/
def couponTax (p : BondParameters) : ℚ := grossCoupon p * taxDecimal p

/-- Source `capitalGain = (sellingPrice - currentPrice) / 100 * nominal`. -/
def capitalGain (p : BondParameters) : ℚ :=
  (p.sellingPrice - p.currentPrice) / 100 * p.nominal

/-- Source `capGainTax = capitalGain > 0 ? capitalGain * taxDecimal : 0`. -/
def capGainTax (p : BondParameters) : ℚ :=
  if capitalGain p > 0 then capitalGain p * taxDecimal p else 0

/-- Source `sellCommission = nominal * commissionDecimal` (sell side). -/
def sellCommission (p : BondParameters) : ℚ :=
  p.nominal * commissionDecimal p

/-- Inflows of a post-purchase period: always the coupon, plus the
nominal redemption when the period is the last one. -/
def periodInflows (p : BondParameters) (isLast : Bool) : List CashFlowDetail :=
  [⟨"Cedola", grossCoupon p, false⟩] ++
    (if isLast then [⟨"Rimborso Nominale", p.nominal, false⟩] else [])

/-- Outflows of a post-purchase period: always the coupon tax; at the
last period also the capital-gain tax when the computed tax is positive,
and the sell-side commission when `sellAtMaturity` is off. -/
def periodOutflows (p : BondParameters) (isLast : Bool) : List CashFlowDetail :=
  [⟨"Tassazione Cedola", couponTax p, false⟩] ++
    (if isLast && decide (capGainTax p > 0) then
      [⟨"Tassa Capital Gain", capGainTax p, false⟩] else []) ++
    (if isLast && !p.sellAtMaturity then
      [⟨"Commissione Banca", sellCommission p, false⟩] else [])

/-- One iteration of the source loop `for (let i = 1; i <= totalPeriods; i++)`,
given the cumulative balance `prevCum` before the period. -/
def periodRow (p : BondParameters) (N i : ℕ) (prevCum : ℚ) : CashFlowData :=
  let isLast := i == N
  let inflows := periodInflows p isLast
  let outflows := periodOutflows p isLast
  let pos := (inflows.map CashFlowDetail.value).sum
  let neg := -((outflows.map CashFlowDetail.value).sum)
  { periodIndex := i
    time := (match p.periodicity with
             | .annual => "A"
             | .semiannual => "S") ++ toString i
    positive := pos
    negative := neg
    cumulative := prevCum + (pos + neg)
    label := if isLast then "Scadenza"
             else (match p.periodicity with
                   | .annual => "Anno "
                   | .semiannual => "Semestre ") ++ toString i
    inflows := inflows
    outflows := outflows }

/-- The rows produced by `count` iterations of the source loop starting
at index `i` with cumulative balance `cum`. -/
def buildRows (p : BondParameters) (N : ℕ) : ℕ → ℚ → ℕ → List CashFlowData
  | _, _, 0 => []
  | i, cum, count + 1 =>
    let row := periodRow p N i cum
    row :: buildRows p N (i + 1) row.cumulative count

/-- The `cashFlows` memo of the source: the T0 row followed by the rows
of periods `1 .. totalPeriods`. -/
def cashFlows (p : BondParameters) : List CashFlowData :=
  t0Row p :: buildRows p (totalPeriods p) 1 (t0Cumulative p) (totalPeriods p)

/-- Real (non-figurative) inflow total of one row, source:
`item.details.inflows.reduce((s, d) => s + (d.isFigurative ? 0 : d.value), 0)`. -/
def realInflow (row : CashFlowData) : ℚ :=
  (row.inflows.map (fun d => if d.isFigurative then 0 else d.value)).sum

/-- Source `totalPositive`: the sum of real inflows over all rows. -/
def totalPositive (p : BondParameters) : ℚ :=
  ((cashFlows p).map realInflow).sum

/-- Source `totalNegative = Math.abs(cashFlows.reduce((sum, item) => sum + item.negative, 0))`. -/
def totalNegative (p : BondParameters) : ℚ :=
  |((cashFlows p).map CashFlowData.negative).sum|

/-- Source `netProfit = totalPositive - totalNegative`. -/
def netProfit (p : BondParameters) : ℚ :=
  totalPositive p - totalNegative p

/-- Source `initialInvestment = Math.abs(cashFlows[0]?.negative || 1)`:
a missing row or a zero (falsy) value falls back to `1` before `abs`. -/
def initialInvestment (p : BondParameters) : ℚ :=
  |(match (cashFlows p).head? with
    | none => 1
    | some r => if r.negative = 0 then 1 else r.negative)|

/-- Source `totalReturnPercent = (netProfit / initialInvestment) * 100`. -/
def totalReturnPercent (p : BondParameters) : ℚ :=
  netProfit p / initialInvestment p * 100

/-- Source `avgAnnualReturn = durationYears > 0 ? totalReturnPercent / durationYears : totalReturnPercent`. -/
def avgAnnualReturn (p : BondParameters) : ℚ :=
  if p.durationYears > 0 then totalReturnPercent p / p.durationYears
  else totalReturnPercent p

/-- The first row of the schedule (`cashFlows[0]`). -/
def headRow (p : BondParameters) : CashFlowData :=
  (cashFlows p).headI

/-- The last row of the schedule (the terminal period); the default is
irrelevant since `cashFlows` is never empty. -/
def lastPeriod (p : BondParameters) : CashFlowData :=
  (cashFlows p).getLastD (t0Row p)

/-- Scenario A of the spec: nominal 10000, purchase 98.5, sale 100,
tax 12.5 %, coupon 3.5 %, commission 2 ‰, annual coupons, five years to
maturity, nominal at T0 neither real nor shown, sale at maturity. -/
def scenarioA : BondParameters :=
  { nominal := 10000
    currentPrice := 98.5
    sellingPrice := 100
    taxRate := 12.5
    couponRate := 3.5
    bankCommission := 2
    periodicity := .annual
    durationYears := 5
    includeNominalAtT0 := false
    sellAtMaturity := true
    showNominal := false }

/-- Scenario A with the tax rate set to zero. -/
def zeroTaxBond : BondParameters := { scenarioA with taxRate := 0 }

/-- A degenerate input with a negative purchase price: the projector
accepts it and its T0 "outflow" is a positive amount. -/
def negPriceBond : BondParameters :=
  { nominal := 100
    currentPrice := -200
    sellingPrice := -200
    taxRate := 0
    couponRate := 0
    bankCommission := 0
    periodicity := .annual
    durationYears := 1
    includeNominalAtT0 := false
    sellAtMaturity := true
    showNominal := false }

/-- Scenario A with a maturity date in the past (clamped year span 0). -/
def pastMaturityBond : BondParameters := { scenarioA with durationYears := 0 }

/-! ## Structural lemmas -/

/-- `getLastD` steps over a cons, replacing the default. -/
theorem getLastD_cons_eq {α : Type _} (a d : α) (l : List α) :
    (a :: l).getLastD d = l.getLastD a := by
  cases l <;> simp [List.getLastD]

/-- Evaluation helper: `totalPeriods` from the value of the ceiling. -/
theorem totalPeriods_eq {p : BondParameters} {n : ℕ}
    (h : ⌈p.durationYears * periodsPerYear p⌉ = (n : ℤ)) (hn : 1 ≤ n) :
    totalPeriods p = n := by
  rw [totalPeriods, h, Int.toNat_natCast]
  exact max_eq_right hn

theorem totalPeriods_pos (p : BondParameters) : 1 ≤ totalPeriods p :=
  le_max_left 1 _

theorem buildRows_length (p : BondParameters) (N : ℕ) :
    ∀ count i cum, (buildRows p N i cum count).length = count := by
  intro count
  induction count with
  | zero => intro i cum; rfl
  | succ k ih => intro i cum; simp [buildRows, ih]

theorem cashFlows_length (p : BondParameters) :
    (cashFlows p).length = totalPeriods p + 1 := by
  simp [cashFlows, buildRows_length]

theorem periodRow_cumulative (p : BondParameters) (N i : ℕ) (c : ℚ) :
    (periodRow p N i c).cumulative =
      c + ((periodRow p N i c).positive + (periodRow p N i c).negative) := rfl

theorem periodRow_outflows (p : BondParameters) (N i : ℕ) (c : ℚ) :
    (periodRow p N i c).outflows = periodOutflows p (i == N) := rfl

theorem periodRow_inflows (p : BondParameters) (N i : ℕ) (c : ℚ) :
    (periodRow p N i c).inflows = periodInflows p (i == N) := rfl

theorem periodRow_periodIndex (p : BondParameters) (N i : ℕ) (c : ℚ) :
    (periodRow p N i c).periodIndex = i := rfl

/-- The rows built by the loop carry consecutive period indices. -/
theorem buildRows_get_periodIndex (p : BondParameters) (N : ℕ) :
    ∀ count i cum j (h : j < (buildRows p N i cum count).length),
      ((buildRows p N i cum count).get ⟨j, h⟩).periodIndex = i + j := by
  intro count
  induction count with
  | zero => intro i cum j h; simp [buildRows] at h
  | succ k ih =>
    intro i cum j h
    match j with
    | 0 => exact periodRow_periodIndex p N i cum
    | Nat.succ m =>
      have hm : m < (buildRows p N (i + 1) (periodRow p N i cum).cumulative k).length := by
        simpa [buildRows, buildRows_length] using h
      calc ((buildRows p N i cum (k + 1)).get ⟨m + 1, h⟩).periodIndex
          = ((buildRows p N (i + 1) (periodRow p N i cum).cumulative k).get
              ⟨m, hm⟩).periodIndex := rfl
        _ = (i + 1) + m := ih (i + 1) _ m hm
        _ = i + (m + 1) := by omega

/-- Every row of `cashFlows` has `periodIndex` equal to its position. -/
theorem cashFlows_get_periodIndex (p : BondParameters)
    (k : ℕ) (h : k < (cashFlows p).length) :
    ((cashFlows p).get ⟨k, h⟩).periodIndex = k := by
  match k with
  | 0 => rfl
  | Nat.succ m =>
    have hm : m < (buildRows p (totalPeriods p) 1 (t0Cumulative p)
        (totalPeriods p)).length := by
      simpa [cashFlows] using h
    have hstep := buildRows_get_periodIndex p (totalPeriods p)
      (totalPeriods p) 1 (t0Cumulative p) m hm
    calc ((cashFlows p).get ⟨m + 1, h⟩).periodIndex
        = ((buildRows p (totalPeriods p) 1 (t0Cumulative p)
            (totalPeriods p)).get ⟨m, hm⟩).periodIndex := rfl
      _ = 1 + m := hstep
      _ = m + 1 := by omega

/-- The last of `count + 1` built rows is the row with index `i + count`
(for some cumulative input). -/
theorem buildRows_getLastD (p : BondParameters) (N : ℕ) :
    ∀ count i cum d, ∃ c,
      (buildRows p N i cum (count + 1)).getLastD d = periodRow p N (i + count) c := by
  intro count
  induction count with
  | zero => intro i cum d; exact ⟨cum, rfl⟩
  | succ k ih =>
    intro i cum d
    obtain ⟨c, hc⟩ := ih (i + 1) (periodRow p N i cum).cumulative (periodRow p N i cum)
    refine ⟨c, ?_⟩
    calc (buildRows p N i cum (k + 1 + 1)).getLastD d
        = (periodRow p N i cum ::
            buildRows p N (i + 1) (periodRow p N i cum).cumulative (k + 1)).getLastD d := rfl
      _ = (buildRows p N (i + 1) (periodRow p N i cum).cumulative (k + 1)).getLastD
            (periodRow p N i cum) := getLastD_cons_eq _ _ _
      _ = periodRow p N (i + 1 + k) c := hc
      _ = periodRow p N (i + (k + 1)) c := by
          rw [(by omega : i + 1 + k = i + (k + 1))]

/-- The terminal row of the schedule is the loop row at `i = totalPeriods`. -/
theorem lastPeriod_eq (p : BondParameters) :
    ∃ c, lastPeriod p = periodRow p (totalPeriods p) (totalPeriods p) c := by
  obtain ⟨m, hm⟩ : ∃ m, totalPeriods p = m + 1 :=
    ⟨totalPeriods p - 1, (Nat.succ_pred_eq_of_pos (totalPeriods_pos p)).symm⟩
  obtain ⟨c, hc⟩ := buildRows_getLastD p (totalPeriods p) m 1 (t0Cumulative p) (t0Row p)
  refine ⟨c, ?_⟩
  calc lastPeriod p
      = (t0Row p :: buildRows p (totalPeriods p) 1 (t0Cumulative p)
          (totalPeriods p)).getLastD (t0Row p) := rfl
    _ = (buildRows p (totalPeriods p) 1 (t0Cumulative p)
          (totalPeriods p)).getLastD (t0Row p) := getLastD_cons_eq _ _ _
    _ = periodRow p (totalPeriods p) (totalPeriods p) c := by
        rw [hm] at hc ⊢
        rw [hc]
        congr 1
        omega

/-- The terminal row's outflows are the last-period outflows. -/
theorem lastPeriod_outflows (p : BondParameters) :
    (lastPeriod p).outflows = periodOutflows p true := by
  obtain ⟨c, hc⟩ := lastPeriod_eq p
  rw [hc, periodRow_outflows, beq_self_eq_true]

/-- The terminal row's inflows are the last-period inflows. -/
theorem lastPeriod_inflows (p : BondParameters) :
    (lastPeriod p).inflows = periodInflows p true := by
  obtain ⟨c, hc⟩ := lastPeriod_eq p
  rw [hc, periodRow_inflows, beq_self_eq_true]

/-! ## Accounting lemmas: running sum versus aggregates -/

theorem sum_map_add {α : Type _} (l : List α) (f g : α → ℚ) :
    (l.map (fun x => f x + g x)).sum = (l.map f).sum + (l.map g).sum := by
  induction l with
  | nil => simp
  | cons a t ih => simp only [List.map_cons, List.sum_cons, ih]; ring

/-- Post-purchase rows contain no figurative inflows, so their real
inflow is their displayed positive total. -/
theorem realInflow_periodRow (p : BondParameters) (N i : ℕ) (c : ℚ) :
    realInflow (periodRow p N i c) = (periodRow p N i c).positive := by
  cases h : (i == N) <;> simp [realInflow, periodRow, periodInflows, h]

/-- At T0, the real inflow is the nominal exactly when it is flagged real. -/
theorem realInflow_t0Row (p : BondParameters) :
    realInflow (t0Row p) = t0RealInflow p := by
  cases hI : p.includeNominalAtT0 <;> cases hS : p.showNominal <;>
    simp [realInflow, t0Row, t0Inflows, t0RealInflow, hI, hS]

theorem buildRows_map_realInflow (p : BondParameters) (N : ℕ) :
    ∀ count i cum,
      (buildRows p N i cum count).map realInflow =
        (buildRows p N i cum count).map CashFlowData.positive := by
  intro count
  induction count with
  | zero => intro i cum; rfl
  | succ k ih =>
    intro i cum
    simp only [buildRows, List.map_cons, ih, List.cons.injEq, and_true]
    exact realInflow_periodRow p N i cum

/-- The cumulative balance of the last built row is the starting balance
plus the net flow of every built row. -/
theorem buildRows_getLastD_cumulative (p : BondParameters) (N : ℕ) :
    ∀ count i cum d,
      ((buildRows p N i cum (count + 1)).getLastD d).cumulative =
        cum + ((buildRows p N i cum (count + 1)).map
          (fun r => r.positive + r.negative)).sum := by
  intro count
  induction count with
  | zero =>
    intro i cum d
    show (periodRow p N i cum).cumulative = _
    rw [periodRow_cumulative]
    simp [buildRows]
  | succ k ih =>
    intro i cum d
    have h1 : (buildRows p N i cum (k + 1 + 1)).getLastD d =
        (buildRows p N (i + 1) (periodRow p N i cum).cumulative (k + 1)).getLastD
          (periodRow p N i cum) := getLastD_cons_eq _ _ _
    have h2 : (buildRows p N i cum (k + 1 + 1)).map
        (fun r => r.positive + r.negative) =
        ((periodRow p N i cum).positive + (periodRow p N i cum).negative) ::
          ((buildRows p N (i + 1) (periodRow p N i cum).cumulative (k + 1)).map
            (fun r => r.positive + r.negative)) := rfl
    rw [h1, ih, h2, List.sum_cons, periodRow_cumulative]
    ring

/-- Aggregate form of the running balance: the terminal cumulative
balance is the total of real inflows plus the signed total of the
per-period negative totals. -/
theorem lastPeriod_cumulative (p : BondParameters) :
    (lastPeriod p).cumulative =
      totalPositive p + ((cashFlows p).map CashFlowData.negative).sum := by
  obtain ⟨m, hm⟩ : ∃ m, totalPeriods p = m + 1 :=
    ⟨totalPeriods p - 1, (Nat.succ_pred_eq_of_pos (totalPeriods_pos p)).symm⟩
  have hrows : cashFlows p = t0Row p ::
      buildRows p (totalPeriods p) 1 (t0Cumulative p) (totalPeriods p) := rfl
  have h0 : (lastPeriod p).cumulative =
      t0Cumulative p + ((buildRows p (totalPeriods p) 1 (t0Cumulative p)
        (totalPeriods p)).map (fun r => r.positive + r.negative)).sum := by
    have h1 : lastPeriod p = (buildRows p (totalPeriods p) 1 (t0Cumulative p)
        (totalPeriods p)).getLastD (t0Row p) := getLastD_cons_eq _ _ _
    rw [h1]
    conv_lhs => rw [hm]
    conv_rhs => rw [hm]
    rw [buildRows_getLastD_cumulative]
  have hneg : (t0Row p).negative = t0Negative p := rfl
  have htc : t0Cumulative p = t0RealInflow p + t0Negative p := rfl
  rw [h0, totalPositive, hrows, List.map_cons, List.map_cons, List.sum_cons,
    List.sum_cons, realInflow_t0Row, buildRows_map_realInflow, sum_map_add,
    hneg, htc]
  ring

/-! ## Terminal-period outflow characterizations -/

/-- The capital-gain-tax entries of the terminal period: one entry of
amount `capGainTax` when that amount is positive, none otherwise. -/
theorem capGain_filter_eq (p : BondParameters) :
    (lastPeriod p).outflows.filter (fun d => d.label == "Tassa Capital Gain") =
      if 0 < capGainTax p then [⟨"Tassa Capital Gain", capGainTax p, false⟩]
      else [] := by
  rw [lastPeriod_outflows, periodOutflows]
  by_cases hc : 0 < capGainTax p <;>
    cases hs : p.sellAtMaturity <;>
      simp [hc, hs, List.filter]

/-- The sell-side bank-commission entries of the terminal period: none
when selling at maturity, exactly one of amount `sellCommission` otherwise. -/
theorem commission_filter_eq (p : BondParameters) :
    (lastPeriod p).outflows.filter (fun d => d.label == "Commissione Banca") =
      if p.sellAtMaturity then []
      else [⟨"Commissione Banca", sellCommission p, false⟩] := by
  rw [lastPeriod_outflows, periodOutflows]
  by_cases hc : 0 < capGainTax p <;>
    cases hs : p.sellAtMaturity <;>
      simp [hc, hs, List.filter]

/-- The computed capital-gain tax is positive exactly when the gain is
positive and the tax rate is positive. -/
theorem capGainTax_pos_iff (p : BondParameters) :
    0 < capGainTax p ↔ 0 < capitalGain p ∧ 0 < p.taxRate := by
  rw [capGainTax]
  by_cases hg : 0 < capitalGain p
  · rw [if_pos hg]
    constructor
    · intro h
      refine ⟨hg, ?_⟩
      have htd : 0 < taxDecimal p := by
        by_contra hle
        push_neg at hle
        nlinarith [mul_nonpos_of_nonneg_of_nonpos hg.le hle]
      have h100 : p.taxRate = 100 * taxDecimal p := by
        rw [taxDecimal]; ring
      nlinarith
    · rintro ⟨-, ht⟩
      exact mul_pos hg (div_pos ht (by norm_num))
  · rw [if_neg hg]
    constructor
    · intro h; exact absurd h (lt_irrefl 0)
    · rintro ⟨hg', -⟩; exact absurd hg' hg

/-! ## The claims -/

/-- C1, as stated, is false: with a zero tax rate the terminal period of
a bond sold above its purchase price carries no "Tassa Capital Gain"
(Capital Gain Tax) outflow, although `sellingPrice > purchasePrice`. -/
theorem C1_counterexample :
    zeroTaxBond.currentPrice < zeroTaxBond.sellingPrice ∧
      (lastPeriod zeroTaxBond).outflows.filter
        (fun d => d.label == "Tassa Capital Gain") = [] := by
  refine ⟨by norm_num [zeroTaxBond, scenarioA], ?_⟩
  rw [capGain_filter_eq, if_neg]
  rw [capGainTax_pos_iff]
  rintro ⟨-, h⟩
  exact absurd h (by norm_num [zeroTaxBond, scenarioA])

/-- C1 (amended): the terminal period contains a "Tassa Capital Gain"
(Capital Gain Tax) outflow iff `(sellingPrice − purchasePrice)/100 ×
nominal > 0` and `taxRate > 0`, and when present the single entry's
amount is `(sellingPrice − purchasePrice)/100 × nominal × taxRate/100`. -/
theorem C1_capitalGainTax (p : BondParameters) :
    (lastPeriod p).outflows.filter (fun d => d.label == "Tassa Capital Gain") =
      if 0 < (p.sellingPrice - p.currentPrice) / 100 * p.nominal ∧ 0 < p.taxRate
      then [⟨"Tassa Capital Gain",
        (p.sellingPrice - p.currentPrice) / 100 * p.nominal * (p.taxRate / 100),
        false⟩]
      else [] := by
  rw [capGain_filter_eq]
  have hg : capitalGain p = (p.sellingPrice - p.currentPrice) / 100 * p.nominal := rfl
  have htd : taxDecimal p = p.taxRate / 100 := rfl
  by_cases h : 0 < capGainTax p
  · rw [if_pos h, if_pos]
    · have h2 := (capGainTax_pos_iff p).mp h
      rw [capGainTax, if_pos h2.1, hg, htd]
    · have h2 := (capGainTax_pos_iff p).mp h
      rw [← hg]; exact h2
  · rw [if_neg h, if_neg]
    rw [← hg]
    intro h2
    exact h ((capGainTax_pos_iff p).mpr h2)

/-- C6: when `sellAtMaturity` the terminal period has no "Commissione
Banca" (Bank Commission) outflow; otherwise it has exactly one, of
amount `nominal × bankCommissionPerMille/1000`. -/
theorem C6_maturityCommission (p : BondParameters) :
    (lastPeriod p).outflows.filter (fun d => d.label == "Commissione Banca") =
      if p.sellAtMaturity then []
      else [⟨"Commissione Banca", p.nominal * (p.bankCommission / 1000), false⟩] := by
  rw [commission_filter_eq]
  rfl

/-- C10: with a non-positive tax rate the terminal period carries no
"Tassa Capital Gain" (Capital Gain Tax) outflow, even when
`sellingPrice > purchasePrice`: the entry is emitted only when the
computed tax amount itself is positive. -/
theorem C10_noTaxEntryWhenRateNonpos (p : BondParameters)
    (h : p.taxRate ≤ 0) :
    (lastPeriod p).outflows.filter
      (fun d => d.label == "Tassa Capital Gain") = [] := by
  rw [capGain_filter_eq, if_neg]
  rw [capGainTax_pos_iff]
  rintro ⟨-, h2⟩
  exact absurd h2 (not_lt.mpr h)

/-- C2, as stated for every input, is false: with a negative purchase
price the T0 "negative total" is positive, `Math.abs` flips the sign of
the aggregate outflow total, and the terminal cumulative balance differs
from `totalRealInflow − totalOutflow`. -/
theorem C2_counterexample :
    (lastPeriod negPriceBond).cumulative ≠
      totalPositive negPriceBond - totalNegative negPriceBond := by
  have hN : totalPeriods negPriceBond = 1 :=
    totalPeriods_eq (by norm_num [negPriceBond, periodsPerYear]) (by norm_num)
  simp only [negPriceBond] at hN ⊢
  norm_num [lastPeriod, cashFlows, hN, buildRows, periodRow, periodInflows,
    periodOutflows, t0Row, t0Cumulative, t0RealInflow, t0Negative, t0Positive,
    t0Inflows, t0Outflows, purchaseCost, buyCommission, grossCoupon, couponTax,
    capGainTax, capitalGain, sellCommission, taxDecimal, couponDecimal,
    commissionDecimal, periodsPerYear, totalPositive, totalNegative, realInflow]

/-- C2 (amended): whenever the signed sum of the per-period negative
totals is ≤ 0 (as it is for any bond whose outflow amounts are all
nonnegative), the terminal cumulative balance equals
`totalRealInflow − totalOutflow`: the running sum and the aggregate
summary agree with no double counting or drift. -/
theorem C2_aggregateAgreement (p : BondParameters)
    (h : ((cashFlows p).map CashFlowData.negative).sum ≤ 0) :
    (lastPeriod p).cumulative = totalPositive p - totalNegative p := by
  rw [lastPeriod_cumulative, totalNegative, abs_of_nonpos h]
  ring

/-- Witness for C2 at Scenario A. -/
theorem C2_witness :
    (lastPeriod scenarioA).cumulative =
      totalPositive scenarioA - totalNegative scenarioA := by
  refine C2_aggregateAgreement scenarioA ?_
  have hN : totalPeriods scenarioA = 5 :=
    totalPeriods_eq (by norm_num [scenarioA, periodsPerYear]) (by norm_num)
  simp only [scenarioA] at hN ⊢
  norm_num at hN
  norm_num [cashFlows, hN, buildRows, periodRow, periodInflows,
    periodOutflows, t0Row, t0Cumulative, t0RealInflow, t0Negative, t0Positive,
    t0Inflows, t0Outflows, purchaseCost, buyCommission, grossCoupon, couponTax,
    capGainTax, capitalGain, sellCommission, taxDecimal, couponDecimal,
    commissionDecimal, periodsPerYear]

/-- C3: the schedule always has exactly `N + 1` rows whose period
indices run contiguously and strictly increasingly through `0 .. N`,
where `N = max(1, ⌈yearsToMaturity × periodsPerYear⌉) ≥ 1` — at least
one post-purchase period even when the maturity is today or past. -/
theorem C3_scheduleShape (p : BondParameters) :
    (cashFlows p).length = totalPeriods p + 1 ∧
    totalPeriods p = max 1 (Int.toNat ⌈p.durationYears * periodsPerYear p⌉) ∧
    1 ≤ totalPeriods p ∧
    ∀ k (h : k < (cashFlows p).length),
      ((cashFlows p).get ⟨k, h⟩).periodIndex = k :=
  ⟨cashFlows_length p, rfl, totalPeriods_pos p,
    fun k h => cashFlows_get_periodIndex p k h⟩

/-- C5: the T0 row carries the real "Nominale" entry exactly when
`includeNominalAtT0`, the figurative one exactly when
`includeNominalAtT0` is off and `showNominal` is on, never both, and no
inflow at all otherwise. -/
theorem C5_nominalAtT0 (p : BondParameters) :
    (headRow p).inflows.countP (fun d => d.label == "Nominale") ≤ 1 ∧
    ((⟨"Nominale", p.nominal, false⟩ : CashFlowDetail) ∈ (headRow p).inflows ↔
      p.includeNominalAtT0 = true) ∧
    ((⟨"Nominale", p.nominal, true⟩ : CashFlowDetail) ∈ (headRow p).inflows ↔
      (p.includeNominalAtT0 = false ∧ p.showNominal = true)) ∧
    (p.includeNominalAtT0 = false → p.showNominal = false →
      (headRow p).inflows = []) := by
  have h : headRow p = t0Row p := rfl
  cases hI : p.includeNominalAtT0 <;> cases hS : p.showNominal <;>
    simp [h, t0Row, t0Inflows, hI, hS]

/-- Post-purchase rows do not read `showNominal`. -/
theorem buildRows_showNominal (p : BondParameters) (b : Bool) :
    ∀ count N i c,
      buildRows { p with showNominal := b } N i c count = buildRows p N i c count := by
  intro count
  induction count with
  | zero => intro N i c; rfl
  | succ k ih =>
    intro N i c
    show periodRow { p with showNominal := b } N i c ::
        buildRows { p with showNominal := b } N (i + 1)
          (periodRow { p with showNominal := b } N i c).cumulative k =
      buildRows p N i c (k + 1)
    rw [ih]
    exact rfl

/-- The schedule of a run with `showNominal` toggled differs from the
original only in the T0 row. -/
theorem cashFlows_showNominal (p : BondParameters) (b : Bool) :
    cashFlows { p with showNominal := b } =
      t0Row { p with showNominal := b } ::
        buildRows p (totalPeriods p) 1 (t0Cumulative p) (totalPeriods p) := by
  show t0Row { p with showNominal := b } ::
      buildRows { p with showNominal := b }
        (totalPeriods { p with showNominal := b }) 1
        (t0Cumulative { p with showNominal := b })
        (totalPeriods { p with showNominal := b }) = _
  rw [buildRows_showNominal]
  exact rfl

/-- C4: figurative inflows never interfere with real accounting — two
runs differing only in `showNominal` (with the T0 nominal not real)
have identical cumulative-balance sequences and identical total return. -/
theorem C4_figurativeNoninterference (p : BondParameters) (b : Bool)
    (h : p.includeNominalAtT0 = false) :
    (cashFlows { p with showNominal := b }).map CashFlowData.cumulative =
      (cashFlows p).map CashFlowData.cumulative ∧
    totalReturnPercent { p with showNominal := b } = totalReturnPercent p := by
  have hrows : cashFlows p = t0Row p ::
      buildRows p (totalPeriods p) 1 (t0Cumulative p) (totalPeriods p) := rfl
  have hcum : (cashFlows { p with showNominal := b }).map CashFlowData.cumulative =
      (cashFlows p).map CashFlowData.cumulative := by
    rw [cashFlows_showNominal, hrows, List.map_cons, List.map_cons]
    rfl
  refine ⟨hcum, ?_⟩
  have hpos : totalPositive { p with showNominal := b } = totalPositive p := by
    rw [totalPositive, totalPositive, cashFlows_showNominal, hrows,
      List.map_cons, List.map_cons, List.sum_cons, List.sum_cons,
      realInflow_t0Row, realInflow_t0Row]
    exact rfl
  have hnegsum : ((cashFlows { p with showNominal := b }).map
      CashFlowData.negative).sum = ((cashFlows p).map CashFlowData.negative).sum := by
    rw [cashFlows_showNominal, hrows, List.map_cons, List.map_cons]
    exact rfl
  have hneg : totalNegative { p with showNominal := b } = totalNegative p := by
    rw [totalNegative, totalNegative, hnegsum]
  have hinv : initialInvestment { p with showNominal := b } = initialInvestment p := rfl
  rw [totalReturnPercent, totalReturnPercent, netProfit, netProfit,
    hpos, hneg, hinv]

/-- Witness for C4 at Scenario A with the toggle on. -/
theorem C4_witness :
    (cashFlows { scenarioA with showNominal := true }).map CashFlowData.cumulative =
      (cashFlows scenarioA).map CashFlowData.cumulative ∧
    totalReturnPercent { scenarioA with showNominal := true } =
      totalReturnPercent scenarioA :=
  C4_figurativeNoninterference scenarioA true rfl

/-- C7: the summary return computation is total and guarded:
`initialInvestment` is the absolute value of the T0 negative total with
fallback 1 when that value is zero, hence positive; the total return is
`netProfit / initialInvestment × 100`; and the annualized return divides
by `yearsToMaturity` exactly when that span is positive. -/
theorem C7_summaryGuards (p : BondParameters) :
    initialInvestment p =
      (if |(headRow p).negative| = 0 then 1 else |(headRow p).negative|) ∧
    0 < initialInvestment p ∧
    totalReturnPercent p = netProfit p / initialInvestment p * 100 ∧
    (0 < p.durationYears →
      avgAnnualReturn p = totalReturnPercent p / p.durationYears) ∧
    (¬ 0 < p.durationYears → avgAnnualReturn p = totalReturnPercent p) := by
  have h1 : initialInvestment p =
      |if (t0Row p).negative = 0 then 1 else (t0Row p).negative| := rfl
  have hhead : headRow p = t0Row p := rfl
  refine ⟨?_, ?_, rfl, ?_, ?_⟩
  · rw [h1, hhead]
    by_cases hz : (t0Row p).negative = 0
    · rw [if_pos hz, hz]
      norm_num
    · rw [if_neg hz, if_neg (fun habs => hz (abs_eq_zero.mp habs))]
  · rw [h1]
    by_cases hz : (t0Row p).negative = 0
    · rw [if_pos hz]
      norm_num
    · rw [if_neg hz]
      exact abs_pos.mpr hz
  · intro hd
    rw [avgAnnualReturn, if_pos hd]
  · intro hd
    rw [avgAnnualReturn, if_neg hd]

/-- C8: a maturity date today or in the past clamps the year span to 0,
the schedule degenerates to a single post-purchase period, and that
period simultaneously carries the first-coupon payload and the full
terminal payload (nominal redemption, capital-gain-tax rule and
maturity-commission rule). -/
theorem C8_pastMaturity (p : BondParameters) (diffMs : ℚ)
    (hpast : diffMs ≤ 0) (hdur : p.durationYears = durationYearsOf diffMs) :
    p.durationYears = 0 ∧
    totalPeriods p = 1 ∧
    (cashFlows p).length = 2 ∧
    (lastPeriod p).inflows =
      [⟨"Cedola", grossCoupon p, false⟩,
       ⟨"Rimborso Nominale", p.nominal, false⟩] ∧
    (lastPeriod p).outflows =
      [⟨"Tassazione Cedola", couponTax p, false⟩] ++
        (if 0 < capGainTax p then
          [⟨"Tassa Capital Gain", capGainTax p, false⟩] else []) ++
        (if p.sellAtMaturity then []
         else [⟨"Commissione Banca", sellCommission p, false⟩]) := by
  have h0 : p.durationYears = 0 := by
    rw [hdur, durationYearsOf, max_eq_left hpast]
    exact zero_div _
  have hN : totalPeriods p = 1 := by
    rw [totalPeriods, h0, zero_mul]
    norm_num
  refine ⟨h0, hN, ?_, ?_, ?_⟩
  · rw [cashFlows_length, hN]
  · rw [lastPeriod_inflows, periodInflows]
    simp
  · rw [lastPeriod_outflows, periodOutflows]
    by_cases hc : 0 < capGainTax p <;> cases hs : p.sellAtMaturity <;>
      simp [hc, hs]

/-- Witness for C8 at a one-day-past maturity. -/
theorem C8_witness : totalPeriods pastMaturityBond = 1 :=
  (C8_pastMaturity pastMaturityBond (-86400000) (by norm_num)
    (by norm_num [pastMaturityBond, scenarioA, durationYearsOf, msPerYear])).2.1

/-- C9: Scenario A in full — five annual periods; T0 negative total
`−(9850 + 20)`; periods 1–4 each a gross coupon of 350 against a coupon
tax of 43.75; period 5 additionally the nominal redemption of 10000 and
a capital-gain tax of 18.75, with no second bank commission. -/
theorem C9_scenarioA :
    totalPeriods scenarioA = 5 ∧
    (t0Row scenarioA).negative = -(9850 + 20) ∧
    (cashFlows scenarioA).map CashFlowData.inflows =
      [[],
       [⟨"Cedola", 350, false⟩],
       [⟨"Cedola", 350, false⟩],
       [⟨"Cedola", 350, false⟩],
       [⟨"Cedola", 350, false⟩],
       [⟨"Cedola", 350, false⟩, ⟨"Rimborso Nominale", 10000, false⟩]] ∧
    (cashFlows scenarioA).map CashFlowData.outflows =
      [[⟨"Costo Acquisto", 9850, false⟩, ⟨"Commissione Banca", 20, false⟩],
       [⟨"Tassazione Cedola", 43.75, false⟩],
       [⟨"Tassazione Cedola", 43.75, false⟩],
       [⟨"Tassazione Cedola", 43.75, false⟩],
       [⟨"Tassazione Cedola", 43.75, false⟩],
       [⟨"Tassazione Cedola", 43.75, false⟩,
        ⟨"Tassa Capital Gain", 18.75, false⟩]] := by
  have hN : totalPeriods scenarioA = 5 :=
    totalPeriods_eq (by norm_num [scenarioA, periodsPerYear]) (by norm_num)
  refine ⟨hN, by norm_num [t0Row, t0Negative, purchaseCost, buyCommission,
    commissionDecimal, scenarioA], ?_, ?_⟩ <;>
  · simp only [scenarioA] at hN ⊢
    norm_num at hN
    norm_num [cashFlows, hN, buildRows, periodRow, periodInflows,
      periodOutflows, t0Row, t0Cumulative, t0RealInflow, t0Negative,
      t0Positive, t0Inflows, t0Outflows, purchaseCost, buyCommission,
      grossCoupon, couponTax, capGainTax, capitalGain, sellCommission,
      taxDecimal, couponDecimal, commissionDecimal, periodsPerYear]

/-- Witness for C10 at a concrete zero-tax input. -/
theorem C10_witness :
    (lastPeriod zeroTaxBond).outflows.filter
      (fun d => d.label == "Tassa Capital Gain") = [] :=
  C10_noTaxEntryWhenRateNonpos zeroTaxBond
    (by norm_num [zeroTaxBond, scenarioA])

end BondFlow
